import Mathlib

/-!
Verification development for the Prevail_Rental conversational rental
assistant (Python sources: `App.py`, `webhook_streamlit_app.py`,
`assistant_manager.py`).

The Python code is shallowly embedded: JSON values become the inductive
`JVal`; Python expressions that can raise become computations in
`Except PyErr`; the backend (Booqable REST API / n8n webhooks) is a
parameter of each operation, supplying the response the remote service
would return (`Option JVal`, with `none` standing for a failed
`make_api_request` that returned `None`).  Session state
(`st.session_state`) becomes the explicit `Session` structure, and the
Streamlit polling loop becomes a list of `Op` steps folded over it.
-/

namespace PrevailRental

/-- A Python runtime error: the exception class name and its message. -/
structure PyErr where
  kind : String
  msg : String
deriving DecidableEq, Repr

def keyError (k : String) : PyErr := ⟨"KeyError", "'" ++ k ++ "'"⟩

def typeError (m : String) : PyErr := ⟨"TypeError", m⟩

def valueError (m : String) : PyErr := ⟨"ValueError", m⟩

def attributeError (m : String) : PyErr := ⟨"AttributeError", m⟩

def indexError (m : String) : PyErr := ⟨"IndexError", m⟩

/-- `json.loads` failure on arguments that are not valid JSON. -/
def jsonDecodeErr : PyErr := ⟨"JSONDecodeError", "Expecting value: line 1 column 1 (char 0)"⟩

/-- JSON-like Python values (dicts keep insertion order, as in CPython). -/
inductive JVal where
  | null : JVal
  | bool (b : Bool) : JVal
  | num (q : ℚ) : JVal
  | str (s : String) : JVal
  | arr (xs : List JVal) : JVal
  | obj (kvs : List (String × JVal)) : JVal

/-- Python truthiness of a value. -/
def truthy : JVal → Bool
  | .null => false
  | .bool b => b
  | .num q => decide (q ≠ 0)
  | .str s => decide (s ≠ "")
  | .arr xs => !xs.isEmpty
  | .obj kvs => !kvs.isEmpty

/-- First binding of a key in an object, as a pure lookup (used in
theorem statements; `none` when absent or not an object). -/
def jLookup? (v : JVal) (k : String) : Option JVal :=
  match v with
  | .obj kvs => (kvs.find? (fun kv => kv.1 = k)).map (·.2)
  | _ => none

/-- Python `d[k]`: raises `KeyError` when absent, `TypeError` on
non-subscriptable values. -/
def jIndex (v : JVal) (k : String) : Except PyErr JVal :=
  match v with
  | .obj kvs =>
    match (kvs.find? (fun kv => kv.1 = k)).map (·.2) with
    | some x => .ok x
    | none => .error (keyError k)
  | .arr _ => .error (typeError "list indices must be integers or slices, not str")
  | _ => .error (typeError "value is not subscriptable")

/-- Character-list test: does `hay` start with `needle`? -/
def startsWithList : List Char → List Char → Bool
  | [], _ => true
  | _ :: _, [] => false
  | a :: as, b :: bs => a = b && startsWithList as bs

/-- Character-list test: does `needle` occur inside `hay`? -/
def containsList (needle : List Char) : List Char → Bool
  | [] => needle.isEmpty
  | b :: bs => startsWithList needle (b :: bs) || containsList needle bs

/-- Occurrence test used to model Python substring containment. -/
def strContains (hay needle : String) : Bool :=
  containsList needle.data hay.data

/-- Python `s.replace("-", "")`: remove every dash. -/
def removeDashes (s : String) : String :=
  String.mk (s.data.filter (fun c => c ≠ '-'))

/-- Python `k in v`: key membership for dicts, element membership for
lists, substring test for strings, `TypeError` otherwise. -/
def jHasKey (v : JVal) (k : String) : Except PyErr Bool :=
  match v with
  | .obj kvs => .ok (kvs.any (fun kv => kv.1 = k))
  | .arr xs => .ok (xs.any (fun x => match x with | .str s => s = k | _ => false))
  | .str s => .ok (strContains s k)
  | _ => .error (typeError "argument is not iterable")

/-- Python `d.get(k, default)`: only dicts have `.get`; anything else
raises `AttributeError`. -/
def jGetD (v : JVal) (k : String) (dflt : JVal) : Except PyErr JVal :=
  match v with
  | .obj kvs =>
    match (kvs.find? (fun kv => kv.1 = k)).map (·.2) with
    | some x => .ok x
    | none => .ok dflt
  | _ => .error (attributeError "object has no attribute get")

/-- Python iteration `for x in v`: list elements, dict keys, string
characters; `TypeError` otherwise. -/
def jIter (v : JVal) : Except PyErr (List JVal) :=
  match v with
  | .arr xs => .ok xs
  | .obj kvs => .ok (kvs.map (fun kv => .str kv.1))
  | .str s => .ok (s.data.map (fun c => .str (String.singleton c)))
  | _ => .error (typeError "object is not iterable")

/-- Python `len(v)`. -/
def jLen (v : JVal) : Except PyErr Nat :=
  match v with
  | .arr xs => .ok xs.length
  | .obj kvs => .ok kvs.length
  | .str s => .ok s.length
  | _ => .error (typeError "object has no len")

/-- Python `xs[0]` on a list value. -/
def jAt0 (v : JVal) : Except PyErr JVal :=
  match v with
  | .arr (x :: _) => .ok x
  | .arr [] => .error (indexError "list index out of range")
  | _ => .error (typeError "value does not support integer indexing")

/-- Decimal value of a digit string (`none` when empty or containing a
non-digit character). -/
def digitsVal? (cs : List Char) : Option Nat :=
  match cs with
  | [] => none
  | _ =>
    cs.foldl
      (fun acc? c =>
        acc?.bind (fun acc => if c.isDigit then some (acc * 10 + (c.toNat - 48)) else none))
      (some 0)

/-- Python `float(x)`; `none` models raising `ValueError`/`TypeError`.
Numeric strings restricted to digit strings (the backend sends cents as
integers). -/
def pyFloat : JVal → Option ℚ
  | .num q => some q
  | .bool b => some (if b then 1 else 0)
  | .str s => (digitsVal? s.data).map (fun n => (n : ℚ))
  | _ => none

def pyFloatE (v : JVal) : Except PyErr ℚ :=
  match pyFloat v with
  | some q => .ok q
  | none => .error (valueError "could not convert value to float")

/-- A Python `try: ... except Exception as e: return handler(e)` block:
the body's exception is consumed and turned into a returned value. -/
def pyTry (body : Except PyErr JVal) (handler : PyErr → JVal) : Except PyErr JVal :=
  match body with
  | .ok v => .ok v
  | .error e => .ok (handler e)

/-- Error payload `\x7b"error": msg\x7d` used throughout both variants. -/
def errObj (m : String) : JVal := .obj [("error", .str m)]

/-- `json.loads` on the raw tool-call arguments, which are already
represented by their parse result (`none` = unparseable text). -/
def jsonLoads : Option JVal → Except PyErr JVal
  | some v => .ok v
  | none => .error jsonDecodeErr

mutual

/-- `json.dumps` (string escaping elided; claims never inspect the
serialized text). -/
def dumps : JVal → String
  | .null => "null"
  | .bool b => if b then "true" else "false"
  | .num q => toString q
  | .str s => "\"" ++ s ++ "\""
  | .arr xs => "[" ++ dumpsList xs ++ "]"
  | .obj kvs => "\x7b" ++ dumpsKVs kvs ++ "\x7d"

def dumpsList : List JVal → String
  | [] => ""
  | [x] => dumps x
  | x :: y :: xs => dumps x ++ ", " ++ dumpsList (y :: xs)

def dumpsKVs : List (String × JVal) → String
  | [] => ""
  | [(k, v)] => "\"" ++ k ++ "\": " ++ dumps v
  | (k, v) :: y :: xs => "\"" ++ k ++ "\": " ++ dumps v ++ ", " ++ dumpsKVs (y :: xs)

end

/-- Python dict key rendered as a string (ids are strings in practice). -/
def jKeyString : JVal → String
  | .str s => s
  | v => dumps v

/-! ### Calendar dates

`datetime.datetime.strptime(s, "%Y-%m-%d")` and day arithmetic, as used
for rental-period handling in both variants. -/

def isLeapYear (y : Nat) : Bool :=
  y % 4 = 0 && (y % 100 != 0 || y % 400 = 0)

def daysInMonth (y m : Nat) : Nat :=
  if m = 2 then (if isLeapYear y then 29 else 28)
  else if m = 4 ∨ m = 6 ∨ m = 9 ∨ m = 11 then 30
  else 31

/-- Split a character list on a separator character (the semantics of
Python's `"...".split("-")` for a one-character separator). -/
def splitOnChar (c : Char) : List Char → List (List Char)
  | [] => [[]]
  | x :: xs =>
    match splitOnChar c xs with
    | [] => if x = c then [[], []] else [[x]]
    | y :: ys => if x = c then [] :: y :: ys else (x :: y) :: ys

/-- Parse `"%Y-%m-%d"`: 4-digit year, 1-2 digit month/day, range-checked
exactly as CPython's `_strptime` plus `datetime` construction do
(`ValueError` otherwise, here `none`). -/
def parseYMD (s : String) : Option (Nat × Nat × Nat) :=
  match (splitOnChar '-' s.data).map (fun cs => (cs, digitsVal? cs)) with
  | [(ys, some y), (ms, some m), (ds, some d)] =>
    if ys.length = 4 ∧ 1 ≤ ms.length ∧ ms.length ≤ 2 ∧ 1 ≤ ds.length ∧ ds.length ≤ 2
        ∧ 1 ≤ y ∧ 1 ≤ m ∧ m ≤ 12 ∧ 1 ≤ d ∧ d ≤ daysInMonth y m
    then some (y, m, d) else none
  | _ => none

/-- Days since the civil epoch 1970-01-01 (Howard Hinnant's
`days_from_civil`); models `datetime` subtraction `.days`. -/
def daysFromCivil (ymd : Nat × Nat × Nat) : Int :=
  let y : Int := if ymd.2.1 ≤ 2 then (ymd.1 : Int) - 1 else (ymd.1 : Int)
  let m : Int := (ymd.2.1 : Int)
  let d : Int := (ymd.2.2 : Int)
  let era : Int := (if 0 ≤ y then y else y - 399) / 400
  let yoe : Int := y - era * 400
  let doy : Int := (153 * (if 2 < m then m - 3 else m + 9) + 2) / 5 + d - 1
  let doe : Int := yoe * 365 + yoe / 4 - yoe / 100 + doy
  era * 146097 + doe - 719468

/-- `strptime(s, "%Y-%m-%d")` on a string, raising `ValueError` on
mismatch. -/
def strptimeYMD (s : String) : Except PyErr (Nat × Nat × Nat) :=
  match parseYMD s with
  | some d => .ok d
  | none => .error (valueError ("time data " ++ s ++ " does not match format %Y-%m-%d"))

/-- `strptime` applied to a JSON value: non-strings raise `TypeError`. -/
def strptimeJ : JVal → Except PyErr (Nat × Nat × Nat)
  | .str s => strptimeYMD s
  | _ => .error (typeError "strptime argument must be str")

def pad2 (n : Nat) : String :=
  if n < 10 then "0" ++ toString n else toString n

def pad4 (n : Nat) : String :=
  if n < 10 then "000" ++ toString n
  else if n < 100 then "00" ++ toString n
  else if n < 1000 then "0" ++ toString n
  else toString n

/-- `strftime("%d-%m-%Y")` of a parsed date. -/
def fmtDMY (ymd : Nat × Nat × Nat) : String :=
  pad2 ymd.2.2 ++ "-" ++ pad2 ymd.2.1 ++ "-" ++ pad4 ymd.1

/-- `strftime("%d-%m-%Y %H:%M")` of a parsed date (midnight). -/
def fmtDMYHM (ymd : Nat × Nat × Nat) : String :=
  fmtDMY ymd ++ " 00:00"

/-- `strftime("%Y-%m-%dT00:00:00Z")`. -/
def fmtISOZ (ymd : Nat × Nat × Nat) : String :=
  pad4 ymd.1 ++ "-" ++ pad2 ymd.2.1 ++ "-" ++ pad2 ymd.2.2 ++ "T00:00:00Z"

/-- `strftime("%Y-%m-%dT00:00:00")`. -/
def fmtISOStart (ymd : Nat × Nat × Nat) : String :=
  pad4 ymd.1 ++ "-" ++ pad2 ymd.2.1 ++ "-" ++ pad2 ymd.2.2 ++ "T00:00:00"

/-- `strftime("%Y-%m-%dT23:59:59")`. -/
def fmtISOEnd (ymd : Nat × Nat × Nat) : String :=
  pad4 ymd.1 ++ "-" ++ pad2 ymd.2.1 ++ "-" ++ pad2 ymd.2.2 ++ "T23:59:59"

/-- `if isinstance(d, str): d = strptime(d).strftime("%d-%m-%Y")`
(non-strings pass through unchanged). -/
def pyDateToDMY : JVal → Except PyErr JVal
  | .str s => do
    let d ← strptimeYMD s
    pure (.str (fmtDMY d))
  | v => pure v

/-- Same conversion targeting `"%d-%m-%Y %H:%M"` (App.py `create_order`). -/
def pyDateToDMYHM : JVal → Except PyErr JVal
  | .str s => do
    let d ← strptimeYMD s
    pure (.str (fmtDMYHM d))
  | v => pure v

/-- Same conversion targeting ISO-8601 with `Z`
(webhook `get_product_details`). -/
def pyDateToISOZ : JVal → Except PyErr JVal
  | .str s => do
    let d ← strptimeYMD s
    pure (.str (fmtISOZ d))
  | v => pure v

/-- Start-of-day ISO conversion (webhook `create_reservation`). -/
def pyDateToISOStart : JVal → Except PyErr JVal
  | .str s => do
    let d ← strptimeYMD s
    pure (.str (fmtISOStart d))
  | v => pure v

/-- End-of-day ISO conversion (webhook `create_reservation`). -/
def pyDateToISOEnd : JVal → Except PyErr JVal
  | .str s => do
    let d ← strptimeYMD s
    pure (.str (fmtISOEnd d))
  | v => pure v

/-! ## App.py — direct-REST Business Operations Provider

Each operation is parameterized by the response(s) the Booqable backend
returns for the request(s) it performs; `make_api_request` returning
`None` (unset key, unsupported method, `RequestException`) is modelled
as `none`. -/

namespace App

/-- One `stock_items` entry built inside `get_product_group`. -/
def stockItemEntry (item : JVal) : Except PyErr JVal := do
  let iid ← jIndex item "id"
  let ident ← jIndex item "identifier"
  let istat ← jIndex item "status"
  pure (.obj [("id", iid), ("identifier", ident), ("status", istat)])

/-- One `products` entry built inside `get_product_group`. -/
def productEntry (product : JVal) : Except PyErr JVal := do
  let hs ← jHasKey product "stock_items"
  let stockItems ←
    if hs then do
      let its ← jIndex product "stock_items"
      let xs ← jIter its
      xs.mapM stockItemEntry
    else pure []
  let pid ← jIndex product "id"
  let pname ← jIndex product "name"
  let price ← jGetD product "base_price" .null
  let scRaw ← jGetD product "stock_counts" (.obj [])
  let sc ← jGetD scRaw "total" (.num 0)
  pure (.obj [("id", pid), ("name", pname), ("price", price),
    ("stock_count", sc), ("stock_items", .arr stockItems)])

/-- `App.py get_product_group`: shape the backend's product-group detail
response; `\x7b"error": ...\x7d` when the request failed or the key is
missing, `KeyError` (uncaught) when nested fields are absent. -/
def get_product_group (resp : Option JVal) : Except PyErr JVal := do
  match resp with
  | some r =>
    if truthy r then do
      let k ← jHasKey r "product_group"
      if k then do
        let pg ← jIndex r "product_group"
        let hp ← jHasKey pg "products"
        let products ←
          if hp then do
            let ps ← jIndex pg "products"
            let xs ← jIter ps
            xs.mapM productEntry
          else pure []
        let gid ← jIndex pg "id"
        let gname ← jIndex pg "name"
        let desc ← jGetD pg "description" .null
        let price ← jGetD pg "base_price" .null
        pure (.obj [("id", gid), ("name", gname), ("description", desc),
          ("price", price), ("products", .arr products)])
      else pure (errObj "Failed to retrieve product group details")
    else pure (errObj "Failed to retrieve product group details")
  | none => pure (errObj "Failed to retrieve product group details")

/-- One group summary built inside `list_product_groups`. -/
def groupEntry (group : JVal) : Except PyErr JVal := do
  let gid ← jIndex group "id"
  let gname ← jIndex group "name"
  let gslug ← jIndex group "slug"
  let desc ← jGetD group "description" .null
  let bp ← jGetD group "base_price" .null
  let sc ← jGetD group "stock_count" .null
  let ph ← jGetD group "photo_url" .null
  pure (.obj [("id", gid), ("name", gname), ("slug", gslug),
    ("description", desc), ("base_price", bp), ("stock_count", sc), ("photo_url", ph)])

/-- `App.py list_product_groups`; note the unguarded
`response["meta"]["total_count"]` lookup. -/
def list_product_groups (resp : Option JVal) : Except PyErr JVal := do
  match resp with
  | some r =>
    if truthy r then do
      let k ← jHasKey r "product_groups"
      if k then do
        let pgs ← jIndex r "product_groups"
        let xs ← jIter pgs
        let entries ← xs.mapM groupEntry
        let meta ← jIndex r "meta"
        let tc ← jIndex meta "total_count"
        pure (.obj [("product_groups", .arr entries), ("total_count", tc)])
      else pure (errObj "Failed to retrieve product groups")
    else pure (errObj "Failed to retrieve product groups")
  | none => pure (errObj "Failed to retrieve product groups")

/-- The short-circuit condition `product_group and "error" not in
product_group and "products" in product_group and
len(product_group["products"]) > 0` shared by the three group-to-product
resolution sites. -/
def resolveCondition (pg : JVal) : Except PyErr Bool := do
  if truthy pg then do
    let he ← jHasKey pg "error"
    if he then pure false
    else do
      let hp ← jHasKey pg "products"
      if hp then do
        let ps ← jIndex pg "products"
        let n ← jLen ps
        pure (decide (0 < n))
      else pure false
  else pure false

/-- The product id that `check_availability` ends up querying: the
speculative group probe runs only under `if product_id:` and replaces the
argument by `product_group["products"][0]["id"]`. -/
def checkAvailabilityResolvedId (pid : JVal) (pgResp : Option JVal) : Except PyErr JVal := do
  if truthy pid then do
    let pg ← get_product_group pgResp
    let c ← resolveCondition pg
    if c then do
      let ps ← jIndex pg "products"
      let fst ← jAt0 ps
      jIndex fst "id"
    else pure pid
  else pure pid

/-- The product id that `get_product_pricing` ends up querying (same
probe, but unconditional). -/
def pricingResolvedId (pid : JVal) (pgResp : Option JVal) : Except PyErr JVal := do
  let pg ← get_product_group pgResp
  let c ← resolveCondition pg
  if c then do
    let ps ← jIndex pg "products"
    let fst ← jAt0 ps
    jIndex fst "id"
  else pure pid

/-- The product id that `book_order` puts into `booking_data["ids"]`
(the two Python branches both amount to using the resolved id). -/
def bookOrderResolvedId (pid : JVal) (pgResp : Option JVal) : Except PyErr JVal := do
  let pg ← get_product_group pgResp
  let c ← resolveCondition pg
  if c then do
    let ps ← jIndex pg "products"
    let fst ← jAt0 ps
    jIndex fst "id"
  else pure pid

/-- `App.py check_availability`, whole body wrapped in
`try/except Exception`. -/
def check_availability (pid fromDate toDate : JVal) (pgResp availResp : Option JVal) :
    Except PyErr JVal :=
  pyTry (do
    let _pid ← checkAvailabilityResolvedId pid pgResp
    let _fromW ← pyDateToDMY fromDate
    let _tillW ← pyDateToDMY toDate
    match availResp with
    | some r =>
      if truthy r then do
        let av ← jGetD r "available" (.num 0)
        let sc ← jGetD r "stock_count" (.num 0)
        let nd ← jGetD r "needed" (.num 0)
        let pl ← jGetD r "planned" (.num 0)
        pure (.obj [("available", av), ("stock_count", sc), ("needed", nd), ("planned", pl)])
      else pure (errObj "Failed to check availability")
    | none => pure (errObj "Failed to check availability"))
  (fun e => errObj ("Error checking availability: " ++ e.msg))

/-- One pricing tile built inside `get_product_pricing`; `price` is
`float(tile.get("price_in_cents", 0)) / 100`. -/
def tileEntry (tile : JVal) : Except PyErr JVal := do
  let n ← jGetD tile "name" .null
  let p ← jGetD tile "period" .null
  let q ← jGetD tile "quantity" .null
  let pc ← jGetD tile "price_in_cents" .null
  let pcDef ← jGetD tile "price_in_cents" (.num 0)
  let f ← pyFloatE pcDef
  pure (.obj [("name", n), ("period", p), ("quantity", q),
    ("price_in_cents", pc), ("price", .num (f / 100))])

/-- Tiles of one price structure (empty when `"tiles"` is absent). -/
def structureTiles (st : JVal) : Except PyErr (List JVal) := do
  let ht ← jHasKey st "tiles"
  if ht then do
    let ts ← jIndex st "tiles"
    let xs ← jIter ts
    xs.mapM tileEntry
  else pure []

/-- `App.py get_product_pricing`, whole body wrapped in
`try/except Exception`. -/
def get_product_pricing (pid : JVal) (pgResp pricesResp : Option JVal) : Except PyErr JVal :=
  pyTry (do
    let _pid ← pricingResolvedId pid pgResp
    match pricesResp with
    | some r =>
      if truthy r then do
        let k ← jHasKey r "price_structures"
        if k then do
          let ss ← jIndex r "price_structures"
          let xs ← jIter ss
          let tss ← xs.mapM structureTiles
          pure (.obj [("pricing", .arr tss.flatten)])
        else pure (errObj "Failed to retrieve pricing information")
      else pure (errObj "Failed to retrieve pricing information")
    | none => pure (errObj "Failed to retrieve pricing information"))
  (fun e => errObj ("Error getting pricing: " ++ e.msg))

/-- The `customer_data` request body assembled by `create_customer`
(the phone value is inserted verbatim — no normalization in this
variant). -/
def customer_data (name email a1 a2 city zipc country phone : JVal) : JVal :=
  .obj [("customer", .obj [("name", name), ("email", email),
    ("properties_attributes", .arr [
      .obj [("type", .str "Property::Address"), ("name", .str "Main"),
        ("address1", a1), ("address2", a2), ("zipcode", zipc),
        ("city", city), ("country", country)],
      .obj [("type", .str "Property::Phone"), ("name", .str "Phone"),
        ("value", phone)]])])]

/-- `App.py create_customer`: no `try/except`, so missing nested keys in
the backend response raise `KeyError`. -/
def create_customer (name email a1 a2 city zipc country phone : JVal) (resp : Option JVal) :
    Except PyErr JVal := do
  let _data := customer_data name email a1 a2 city zipc country phone
  match resp with
  | some r =>
    if truthy r then do
      let k ← jHasKey r "customer"
      if k then do
        let c ← jIndex r "customer"
        let cid ← jIndex c "id"
        let cname ← jIndex c "name"
        let cemail ← jIndex c "email"
        pure (.obj [("customer_id", cid), ("name", cname), ("email", cemail)])
      else pure (errObj "Failed to create customer")
    else pure (errObj "Failed to create customer")
  | none => pure (errObj "Failed to create customer")

/-- `App.py create_order`, whole body wrapped in `try/except Exception`. -/
def create_order (cid startDate endDate : JVal) (resp : Option JVal) : Except PyErr JVal :=
  pyTry (do
    let st ← pyDateToDMYHM startDate
    let et ← pyDateToDMYHM endDate
    let _data := JVal.obj [("order", .obj [("customer_id", cid),
      ("starts_at", st), ("stops_at", et)])]
    match resp with
    | some r =>
      if truthy r then do
        let k ← jHasKey r "order"
        if k then do
          let o ← jIndex r "order"
          let oid ← jIndex o "id"
          let ost ← jIndex o "status"
          let osa ← jIndex o "starts_at"
          let osp ← jIndex o "stops_at"
          pure (.obj [("order_id", oid), ("status", ost),
            ("starts_at", osa), ("stops_at", osp)])
        else pure (errObj "Failed to create order")
      else pure (errObj "Failed to create order")
    | none => pure (errObj "Failed to create order"))
  (fun e => errObj ("Error creating order: " ++ e.msg))

/-- `App.py book_order`, whole body wrapped in `try/except Exception`. -/
def book_order (oid pid qty : JVal) (pgResp resp : Option JVal) : Except PyErr JVal :=
  pyTry (do
    let rid ← bookOrderResolvedId pid pgResp
    let _bookingData := JVal.obj [("ids", .obj [(jKeyString rid, qty)])]
    match resp with
    | some r =>
      if truthy r then do
        let k ← jHasKey r "order"
        if k then do
          let o ← jIndex r "order"
          let boid ← jIndex o "id"
          let bst ← jIndex o "status"
          let gt ← jGetD o "grand_total" .null
          let ps ← jGetD o "payment_status" .null
          pure (.obj [("order_id", boid), ("status", bst),
            ("grand_total", gt), ("payment_status", ps)])
        else pure (errObj "Failed to book order")
      else pure (errObj "Failed to book order")
    | none => pure (errObj "Failed to book order"))
  (fun e => errObj ("Error booking order: " ++ e.msg))

/-- The responses the Booqable backend yields for the requests a tool
dispatch may perform (fixed backend data for one dispatch). -/
structure Backend where
  productGroupsList : Option JVal
  productGroup : Option JVal
  availability : Option JVal
  prices : Option JVal
  customers : Option JVal
  orders : Option JVal
  book : Option JVal

/-- `App.py execute_function`: `args = json.loads(arguments)` sits
outside any `try`, so malformed arguments raise; handler-level raises
propagate unhindered as well. -/
def execute_function (fn : String) (raw : Option JVal) (b : Backend) : Except PyErr JVal := do
  let args ← jsonLoads raw
  if fn = "list_product_groups" then list_product_groups b.productGroupsList
  else if fn = "get_product_group" then do
    let _gid ← jGetD args "product_group_id" .null
    get_product_group b.productGroup
  else if fn = "check_availability" then do
    let pid ← jGetD args "product_id" .null
    let fd ← jGetD args "from_date" .null
    let td ← jGetD args "to_date" .null
    check_availability pid fd td b.productGroup b.availability
  else if fn = "get_product_pricing" then do
    let pid ← jGetD args "product_id" .null
    get_product_pricing pid b.productGroup b.prices
  else if fn = "create_customer" then do
    let n ← jGetD args "name" .null
    let e ← jGetD args "email" .null
    let a1 ← jGetD args "address1" .null
    let a2 ← jGetD args "address2" .null
    let c ← jGetD args "city" .null
    let z ← jGetD args "zipcode" .null
    let co ← jGetD args "country" .null
    let ph ← jGetD args "phone" .null
    create_customer n e a1 a2 c z co ph b.customers
  else if fn = "create_order" then do
    let cid ← jGetD args "customer_id" .null
    let sd ← jGetD args "start_date" .null
    let ed ← jGetD args "end_date" .null
    create_order cid sd ed b.orders
  else if fn = "book_order" then do
    let oid ← jGetD args "order_id" .null
    let pid ← jGetD args "product_id" .null
    let q ← jGetD args "quantity" (.num 1)
    book_order oid pid q b.productGroup b.book
  else pure (errObj ("Unknown function: " ++ fn))

end App

/-! ## webhook_streamlit_app.py — workflow-webhook Business Operations
Provider and its retry loop. -/

namespace Webhook

/-- Outcome of one `requests.post` attempt against a webhook:
success with a JSON payload, `HTTPError` raised by `raise_for_status`
with the response's status code and text, or any other
`RequestException` (connection failure, timeout, ...). -/
inductive AttemptResult where
  | ok (payload : JVal) : AttemptResult
  | httpError (status : Nat) (text : String) : AttemptResult
  | connError (msg : String) : AttemptResult

/-- Model of `str(e)` for an `HTTPError` raised by `raise_for_status`. -/
def httpErrorStr (status : Nat) (text : String) : String :=
  toString status ++ " Error: " ++ text

/-- The body of `call_webhook_with_retry`'s `for attempt in
range(max_retries)` loop, starting at `attempt` with `fuel` iterations
left.  Returns the Python return value (`none` = the loop ran out and
the function fell through, returning `None`) together with the list of
`time.sleep` delays performed, in order. -/
def retryFromAttempt (responses : Nat → AttemptResult) (maxRetries : Nat)
    (backoffFactor : ℚ) : Nat → Nat → Option JVal × List ℚ
  | _, 0 => (none, [])
  | attempt, fuel + 1 =>
    match responses attempt with
    | .ok p => (some p, [])
    | .httpError s txt =>
      if s = 500 ∧ attempt < maxRetries - 1 then
        let d := backoffFactor * 2 ^ attempt
        let rest := retryFromAttempt responses maxRetries backoffFactor (attempt + 1) fuel
        (rest.1, d :: rest.2)
      else (some (errObj (httpErrorStr s txt)), [])
    | .connError m => (some (errObj m), [])

/-- `call_webhook_with_retry(webhook_name, data, max_retries,
backoff_factor)` for a known webhook name, with the sequence of
per-attempt outcomes as the model of the network. -/
def call_webhook_with_retry (responses : Nat → AttemptResult) (maxRetries : Nat)
    (backoffFactor : ℚ) : Option JVal × List ℚ :=
  retryFromAttempt responses maxRetries backoffFactor 0 maxRetries

/-- Modelled from the spec: the retry policy as §4.2 words it —
"retry only on server-side (5xx) failures" — i.e. the retry condition
accepts every status in 500..599, not just 500.  Used solely to compare
the spec's reading against the code. -/
def retryFromAttempt5xx (responses : Nat → AttemptResult) (maxRetries : Nat)
    (backoffFactor : ℚ) : Nat → Nat → Option JVal × List ℚ
  | _, 0 => (none, [])
  | attempt, fuel + 1 =>
    match responses attempt with
    | .ok p => (some p, [])
    | .httpError s txt =>
      if (500 ≤ s ∧ s < 600) ∧ attempt < maxRetries - 1 then
        let d := backoffFactor * 2 ^ attempt
        let rest := retryFromAttempt5xx responses maxRetries backoffFactor (attempt + 1) fuel
        (rest.1, d :: rest.2)
      else (some (errObj (httpErrorStr s txt)), [])
    | .connError m => (some (errObj m), [])

/-- Modelled from the spec: `call_webhook_with_retry` under the spec's
5xx retry criterion. -/
def call_webhook_with_retry_spec5xx (responses : Nat → AttemptResult) (maxRetries : Nat)
    (backoffFactor : ℚ) : Option JVal × List ℚ :=
  retryFromAttempt5xx responses maxRetries backoffFactor 0 maxRetries

/-- Webhook-variant `list_product_groups`; `resp` is the value
`call_webhook_with_retry` returned. -/
def list_product_groups (resp : JVal) : Except PyErr JVal := do
  if truthy resp then do
    let k ← jHasKey resp "product_groups"
    if k then do
      let pgs ← jIndex resp "product_groups"
      let n ← jLen pgs
      pure (.obj [("product_groups", pgs), ("total_count", .num (n : ℚ))])
    else pure (.obj [("error", .str "Failed to retrieve product groups"), ("response", resp)])
  else pure (.obj [("error", .str "Failed to retrieve product groups"), ("response", resp)])

/-- The `product_availability` webhook payload built by
`get_product_details`. -/
def availability_payload (gid fromIso tillIso : JVal) : JVal :=
  .obj [("call", .obj [("call_id", .str "streamlit_app"), ("call_type", .str "web_app")]),
    ("name", .str "product_availability"),
    ("args", .obj [("group_id", gid), ("from_date", fromIso), ("till_date", tillIso)])]

/-- Webhook-variant `get_product_details`: formats the dates, calls the
availability webhook (its result is the parameter `resp`), then derives
`rental_days` from the original date strings — a 0-day span is bumped
to 1 — and prices the rental; whole body in `try/except Exception`. -/
def get_product_details (gid fromDate toDate : JVal) (resp : JVal) : Except PyErr JVal :=
  pyTry (do
    let fromIso ← pyDateToISOZ fromDate
    let tillIso ← pyDateToISOZ toDate
    let _data := availability_payload gid fromIso tillIso
    if truthy resp then do
      let he ← jHasKey resp "error"
      if he then
        pure (.obj [("error", .str "Failed to get product details"), ("response", resp)])
      else do
        let fd ← strptimeJ fromDate
        let td ← strptimeJ toDate
        let rd0 : Int := daysFromCivil td - daysFromCivil fd
        let rd : Int := if rd0 = 0 then 1 else rd0
        let bpv ← jGetD resp "productBasePrice" (.num 0)
        let bp ← pyFloatE bpv
        let total : ℚ := bp * (rd : ℚ)
        let pidv ← jGetD resp "productId" .null
        let pnv ← jGetD resp "productName" .null
        let av ← jGetD resp "available" (.num 0)
        pure (.obj [("product_id", pidv), ("name", pnv),
          ("availability", .obj [("available", av)]),
          ("pricing", .obj [("base_price", .num bp), ("total_price", .num total),
            ("rental_days", .num (rd : ℚ))])])
    else pure (.obj [("error", .str "Failed to get product details"), ("response", resp)]))
  (fun e => errObj ("Error getting product details: " ++ e.msg))

/-- Lines 346-348 of `create_reservation`: `if phone and not
phone.startswith("+"): phone = "+1" + phone.replace("-", "")`.
Truthy non-strings raise `AttributeError` at `.startswith`. -/
def normalizePhone (phoneV : JVal) : Except PyErr JVal :=
  if truthy phoneV then
    match phoneV with
    | .str s =>
      pure (if startsWithList "+".data s.data then .str s
        else .str ("+1" ++ removeDashes s))
    | _ => .error (attributeError "object has no attribute startswith")
  else pure phoneV

/-- The `create_order` webhook payload built by `create_reservation`
(dates formatted, then customer fields extracted, then the phone
normalized). -/
def reservation_payload (customerInfo pid startDate endDate : JVal) : Except PyErr JVal := do
  let fromIso ← pyDateToISOStart startDate
  let tillIso ← pyDateToISOEnd endDate
  let name ← jGetD customerInfo "name" (.str "")
  let email ← jGetD customerInfo "email" (.str "")
  let phone0 ← jGetD customerInfo "phone" (.str "")
  let phone ← normalizePhone phone0
  pure (.obj [("call", .obj [("call_id", .str "streamlit_app"), ("call_type", .str "web_app")]),
    ("name", .str "create_order"),
    ("args", .obj [("client_name", name), ("client_email", email), ("client_phone", phone),
      ("product_id", pid), ("from_date", fromIso), ("till_date", tillIso)])])

/-- Webhook-variant `create_reservation`, whole body in
`try/except Exception`; `resp` is the webhook call's result.  The
`quantity` argument is accepted and unused, as in the source. -/
def create_reservation (customerInfo pid startDate endDate _qty : JVal) (resp : JVal) :
    Except PyErr JVal :=
  pyTry (do
    let _data ← reservation_payload customerInfo pid startDate endDate
    if truthy resp then do
      let he ← jHasKey resp "error"
      if he then
        pure (.obj [("error", .str "Failed to create reservation"), ("response", resp)])
      else do
        let msg ← jGetD resp "result" (.str "Reservation completed successfully")
        pure (.obj [("success", .bool true), ("message", msg)])
    else pure (.obj [("error", .str "Failed to create reservation"), ("response", resp)]))
  (fun e => errObj ("Error creating reservation: " ++ e.msg))

/-- The values the three webhooks return for one dispatch
(`call_webhook_with_retry` always returns a JSON value, never `None`,
for the registered webhook names). -/
structure Backend where
  productsList : JVal
  availability : JVal
  order : JVal

/-- The two `except` clauses of the webhook-variant `execute_function`:
`json.JSONDecodeError` and the catch-all both return an
`\x7b"error": ...\x7d` payload. -/
def dispatchExceptHandlers (body : Except PyErr JVal) : Except PyErr JVal :=
  match body with
  | .ok v => .ok v
  | .error e =>
    if e.kind = "JSONDecodeError" then
      .ok (errObj ("Invalid JSON in arguments: " ++ e.msg))
    else
      .ok (errObj ("Error executing function: " ++ e.msg))

/-- Webhook-variant `execute_function`: everything inside
`try/except json.JSONDecodeError / except Exception`, each handler
returning an `\x7b"error": ...\x7d` payload. -/
def execute_function (fn : String) (raw : Option JVal) (b : Backend) : Except PyErr JVal :=
  dispatchExceptHandlers (do
    let args ← jsonLoads raw
    if fn = "list_product_groups" then list_product_groups b.productsList
    else if fn = "get_product_details" then do
      let gid ← jGetD args "product_group_id" .null
      let fd ← jGetD args "from_date" .null
      let td ← jGetD args "to_date" .null
      get_product_details gid fd td b.availability
    else if fn = "create_reservation" then do
      let ci ← jGetD args "customer_info" (.obj [])
      let pid ← jGetD args "product_id" .null
      let sd ← jGetD args "start_date" .null
      let ed ← jGetD args "end_date" .null
      let q ← jGetD args "quantity" (.num 1)
      create_reservation ci pid sd ed q b.order
    else pure (errObj ("Unknown function: " ++ fn)))

end Webhook

/-! ## Run orchestration and session state

`st.session_state` plus the polling loop shared by `App.py process_run`
and `AssistantManager.handle_required_actions` /
`webhook_streamlit_app.process_run`. -/

/-- A pending tool call of a `requires_action` run. -/
structure ToolCall where
  id : String
  functionName : String
  argumentsRaw : String

/-- One entry of the `tool_outputs` batch handed to
`submit_tool_outputs`. -/
structure ToolOutput where
  tool_call_id : String
  output : String

/-- The `for tool_call in tool_calls` loop of the `requires_action`
branch — identical in `App.py process_run` (lines 533-545) and
`AssistantManager.handle_required_actions` (lines 383-393): every
pending call is executed and contributes exactly one output, keyed by
`tool_call.id`; the whole list is then submitted in one
`submit_tool_outputs` call.  `executor` is the dispatch function, total
here (the claim assumes every invocation returns a value). -/
def buildToolOutputs (toolCalls : List ToolCall) (executor : String → String → JVal) :
    List ToolOutput :=
  toolCalls.map (fun tc =>
    { tool_call_id := tc.id, output := dumps (executor tc.functionName tc.argumentsRaw) })

inductive Role where
  | user : Role
  | assistant : Role
deriving DecidableEq

/-- An entry of `st.session_state.messages`: the `"id"` key is optional
(user messages are appended without one). -/
structure Message where
  role : Role
  content : String
  external_id : Option String
deriving DecidableEq

/-- A message returned by `client.beta.threads.messages.list` — these
always carry an id assigned by the remote service. -/
structure FetchedMessage where
  role : Role
  id : String
  content : String
deriving DecidableEq

/-- The per-session state held in `st.session_state`. -/
structure Session where
  thread_id : Option String
  run_id : Option String
  messages : List Message
deriving DecidableEq

/-- `ensure_thread`: create the remote thread once; `newThreadId` is the
id the remote service would mint. -/
def ensure_thread (s : Session) (newThreadId : String) : Session :=
  if s.thread_id = none then { s with thread_id := some newThreadId } else s

/-- `send_message` (both variants, lines 609-636 of `App.py` and 537-565
of the webhook app): append the user message without an id, forward it
to the remote thread, create a run and record its id.  There is no check
of `run_id` before any of this. -/
def send_message (s : Session) (text : String) (newThreadId newRunId : String) : Session :=
  let s1 := ensure_thread s newThreadId
  let s2 := { s1 with messages := s1.messages ++ [(⟨.user, text, none⟩ : Message)] }
  { s2 with run_id := some newRunId }

/-- The `completed` branch's harvesting loop: each fetched assistant
message is appended only when no entry with its id is present in the
log already (`st.rerun()` merely restarts the script after an append;
re-entering the loop later performs the same guarded appends). -/
def appendFetched (log : List Message) (fetched : List FetchedMessage) : List Message :=
  fetched.foldl
    (fun acc msg =>
      if msg.role = .assistant
          ∧ ¬ (acc.any (fun m => m.external_id = some msg.id)) then
        acc ++ [(⟨.assistant, msg.content, some msg.id⟩ : Message)]
      else acc)
    log

/-- The watermark computed at the top of the `completed` branch:
`last_message_id` stays `None` unless the log's last entry carries an
`"id"` key. -/
def lastMessageId (log : List Message) : Option String :=
  match log.getLast? with
  | some m => m.external_id
  | none => none

/-- One observable step of the UI polling loop: a `send_message`, a
`process_run` observing `completed` (harvest then clear the run
handle), or a `process_run` observing any non-terminal status
(`queued`/`in_progress`/`requires_action`), which leaves the session's
log untouched. -/
inductive SessionOp where
  | send (text newThreadId newRunId : String) : SessionOp
  | complete (fetched : List FetchedMessage) : SessionOp
  | poll : SessionOp

def applySessionOp (s : Session) : SessionOp → Session
  | .send text tid rid => send_message s text tid rid
  | .complete fetched =>
    { s with messages := appendFetched s.messages fetched, run_id := none }
  | .poll => s

/-- The welcome message seeded into `st.session_state.messages`. -/
def welcomeMessage : Message :=
  ⟨.assistant, "Welcome to our Equipment Rental Assistant!", some "welcome_message"⟩

def initialSession : Session := ⟨none, none, [welcomeMessage]⟩

/-- A whole session history: the initial state driven through a sequence
of send/advance observations. -/
def runSession (ops : List SessionOp) : Session :=
  ops.foldl applySessionOp initialSession

/-- Strong de-duplication invariant: no two log entries carry the same
external id at all. -/
def LogIdsDistinct (log : List Message) : Prop :=
  List.Pairwise (fun a b => ∀ s : String, a.external_id = some s → b.external_id ≠ some s) log

/-- The claim's wording: no two messages share the same non-empty
external id. -/
def NoDupNonEmptyExternalIds (log : List Message) : Prop :=
  List.Pairwise
    (fun a b => ∀ s : String, s ≠ "" → a.external_id = some s → b.external_id ≠ some s) log

/-! ## Theorems -/

section Theorems

/-- Claim C1: whenever a `requires_action` run with `N` pending tool
calls is handled and every executor invocation returns a value, the
single submitted batch contains exactly `N` outputs whose
`tool_call_id`s are, as a set (indeed, pointwise), the ids of the
pending calls. -/
theorem C1_requires_action_batch (toolCalls : List ToolCall)
    (executor : String → String → JVal) :
    (buildToolOutputs toolCalls executor).length = toolCalls.length
    ∧ (buildToolOutputs toolCalls executor).map ToolOutput.tool_call_id
        = toolCalls.map ToolCall.id
    ∧ (∀ cid : String,
        cid ∈ (buildToolOutputs toolCalls executor).map ToolOutput.tool_call_id
          ↔ cid ∈ toolCalls.map ToolCall.id) := by
  refine ⟨?_, ?_, ?_⟩
  · simp [buildToolOutputs]
  · simp [buildToolOutputs]
  · intro cid
    simp [buildToolOutputs]

lemma ensure_thread_messages (s : Session) (tid : String) :
    (ensure_thread s tid).messages = s.messages := by
  unfold ensure_thread
  split <;> rfl

lemma send_message_messages (s : Session) (text tid rid : String) :
    (send_message s text tid rid).messages
      = s.messages ++ [(⟨.user, text, none⟩ : Message)] := by
  simp [send_message, ensure_thread_messages]

lemma logIdsDistinct_append (log : List Message) (m : Message)
    (h : LogIdsDistinct log)
    (hm : ∀ x ∈ log, ∀ s : String, x.external_id = some s → m.external_id ≠ some s) :
    LogIdsDistinct (log ++ [m]) := by
  rw [LogIdsDistinct, List.pairwise_append]
  refine ⟨h, List.pairwise_singleton _ _, ?_⟩
  intro a ha b hb
  simp only [List.mem_singleton] at hb
  subst hb
  exact hm a ha

lemma logIdsDistinct_appendFetched (fetched : List FetchedMessage) :
    ∀ log : List Message, LogIdsDistinct log → LogIdsDistinct (appendFetched log fetched) := by
  induction fetched with
  | nil => intro log h; exact h
  | cons f fs ih =>
    intro log h
    have hstep : appendFetched log (f :: fs)
        = appendFetched
            (if f.role = .assistant
                ∧ ¬ (log.any (fun m => m.external_id = some f.id)) then
              log ++ [(⟨.assistant, f.content, some f.id⟩ : Message)]
            else log) fs := rfl
    rw [hstep]
    split
    case isTrue hc =>
      apply ih
      apply logIdsDistinct_append log _ h
      intro x hx s hxs
      have hnone := hc.2
      simp only [List.any_eq_true, not_exists, not_and] at hnone
      intro hcontra
      have hids : f.id = s := by
        simpa using hcontra
      apply hnone x hx
      rw [hxs, hids]
      simp
    case isFalse => exact ih log h

lemma runSession_logIdsDistinct (ops : List SessionOp) :
    ∀ s : Session, LogIdsDistinct s.messages
      → LogIdsDistinct ((ops.foldl applySessionOp s).messages) := by
  induction ops with
  | nil => intro s h; exact h
  | cons op ops ih =>
    intro s h
    apply ih
    cases op with
    | send text tid rid =>
      simp only [applySessionOp, send_message_messages]
      apply logIdsDistinct_append _ _ h
      intro x _ s' _
      simp
    | complete fetched =>
      exact logIdsDistinct_appendFetched fetched s.messages h
    | poll => exact h

/-- Claim C2: over every sequence of send/advance observations, the
session's message log never contains two messages with the same
non-empty external id — a fetched assistant message is appended only
after its id is checked against every entry already in the log. -/
theorem C2_no_duplicate_external_ids (ops : List SessionOp) :
    NoDupNonEmptyExternalIds (runSession ops).messages := by
  have hinit : LogIdsDistinct initialSession.messages := by
    simp [initialSession, LogIdsDistinct]
  have h := runSession_logIdsDistinct ops initialSession hinit
  exact h.imp (fun hab s _ h1 => hab s h1)

/-- A session with a run currently in flight. -/
def sessionWithActiveRun : Session :=
  ⟨some "thread_1", some "run_1", [welcomeMessage]⟩

/-- Claim C5 counterexample: with a run in flight, `send_message` does
not fail and does not leave the session unchanged — it appends the user
message and replaces the active run handle by the freshly created run's
id. -/
theorem C5_counterexample_send_during_active_run :
    (send_message sessionWithActiveRun "hi" "thread_x" "run_2").run_id
        ≠ sessionWithActiveRun.run_id
    ∧ (send_message sessionWithActiveRun "hi" "thread_x" "run_2").messages
        ≠ sessionWithActiveRun.messages := by
  constructor
  · simp [send_message, ensure_thread, sessionWithActiveRun]
  · simp [send_message_messages, sessionWithActiveRun]

/-- Claim C5, amended: `send_message` performs no active-run check at
all — whatever the session state (in particular with `run_id` set), it
appends the user message to the log, forwards it, and overwrites
`run_id` with the new run's id; no `RunAlreadyActive` failure exists in
the code (the UI merely avoids rendering the input while polling). -/
theorem C5_send_has_no_active_run_guard (s : Session) (text tid rid : String) :
    (send_message s text tid rid).messages
        = s.messages ++ [(⟨.user, text, none⟩ : Message)]
    ∧ (send_message s text tid rid).run_id = some rid := by
  exact ⟨send_message_messages s text tid rid, rfl⟩

/-- Claim C10: in both variants' `process_run`, whenever the log's last
entry has no `"id"` key — which is always the case right after
`send_message`, since user messages are stored without one — the
message fetch watermark `after` is `None`, so the fetch starts from the
beginning of the thread and uniqueness rests on the per-message
membership check alone. -/
theorem C10_watermark_none_after_send (s : Session) (text tid rid : String) :
    lastMessageId (send_message s text tid rid).messages = none := by
  rw [send_message_messages, lastMessageId]
  simp

/-- A webhook that answers 502 Bad Gateway once and would succeed on
any later attempt. -/
def seq502 : Nat → Webhook.AttemptResult :=
  fun n => if n = 0 then .httpError 502 "Bad Gateway" else .ok (.str "payload")

/-- Claim C3 counterexample: on a 502 — a server-side (5xx) failure —
the code does not retry: it returns the error payload with zero delays,
while the spec's 5xx retry policy (`call_webhook_with_retry_spec5xx`)
would retry once and return the successful payload. -/
theorem C3_counterexample_502_no_retry :
    Webhook.call_webhook_with_retry seq502 3 (1/2)
        = (some (errObj (Webhook.httpErrorStr 502 "Bad Gateway")), [])
    ∧ Webhook.call_webhook_with_retry_spec5xx seq502 3 (1/2)
        = (some (.str "payload"), [1/2])
    ∧ Webhook.call_webhook_with_retry seq502 3 (1/2)
        ≠ Webhook.call_webhook_with_retry_spec5xx seq502 3 (1/2) := by
  have h1 : Webhook.call_webhook_with_retry seq502 3 (1/2)
      = (some (errObj (Webhook.httpErrorStr 502 "Bad Gateway")), []) := by rfl
  have h2 : Webhook.call_webhook_with_retry_spec5xx seq502 3 (1/2)
      = (some (.str "payload"), [1/2]) := by
    show Webhook.retryFromAttempt5xx seq502 3 (1/2) 0 3 = _
    rw [Webhook.retryFromAttempt5xx]
    norm_num [seq502, Webhook.retryFromAttempt5xx]
  refine ⟨h1, h2, ?_⟩
  rw [h1, h2]
  simp

lemma retryFromAttempt_congr (f g : Nat → Webhook.AttemptResult) (mr : Nat) (b : ℚ) :
    ∀ fuel a, (∀ i, a ≤ i → i < a + fuel → f i = g i)
      → Webhook.retryFromAttempt f mr b a fuel = Webhook.retryFromAttempt g mr b a fuel := by
  intro fuel
  induction fuel with
  | zero => intro a _; rfl
  | succ n ih =>
    intro a h
    have hfa : f a = g a := h a le_rfl (by omega)
    cases hg : g a with
    | ok p => simp only [Webhook.retryFromAttempt, hfa, hg]
    | connError m => simp only [Webhook.retryFromAttempt, hfa, hg]
    | httpError s txt =>
      simp only [Webhook.retryFromAttempt, hfa, hg]
      split
      · rw [ih (a + 1) (fun i h1 h2 => h i (by omega) (by omega))]
      · rfl

/-- Claim C3, amended: the retry criterion is an HTTP status of exactly
500 (not all of 5xx).  A provider call makes at most 3 attempts (its
outcome depends only on the first three responses); 500-500-success
returns the payload after exactly the two delays 0.5 and 1.0;
500 on all three attempts returns an error payload (no exception);
any first response that is an HTTP failure with status other than 500
— 4xx and non-500 5xx alike — or a connection-level failure returns an
error payload immediately with no delay. -/
theorem C3_retry_only_on_500 (f : Nat → Webhook.AttemptResult) (p : JVal)
    (t m : String) (s : Nat) :
    (f 0 = .httpError 500 t → f 1 = .httpError 500 t → f 2 = .ok p →
      Webhook.call_webhook_with_retry f 3 (1/2) = (some p, [1/2, 1]))
    ∧ ((∀ i, i < 3 → f i = .httpError 500 t) →
      Webhook.call_webhook_with_retry f 3 (1/2)
        = (some (errObj (Webhook.httpErrorStr 500 t)), [1/2, 1]))
    ∧ (s ≠ 500 → f 0 = .httpError s t →
      Webhook.call_webhook_with_retry f 3 (1/2)
        = (some (errObj (Webhook.httpErrorStr s t)), []))
    ∧ (f 0 = .connError m →
      Webhook.call_webhook_with_retry f 3 (1/2) = (some (errObj m), []))
    ∧ (∀ g : Nat → Webhook.AttemptResult, (∀ i, i < 3 → f i = g i) →
      Webhook.call_webhook_with_retry f 3 (1/2)
        = Webhook.call_webhook_with_retry g 3 (1/2)) := by
  refine ⟨?_, ?_, ?_, ?_, ?_⟩
  · intro h0 h1 h2
    show Webhook.retryFromAttempt f 3 (1/2) 0 3 = _
    rw [Webhook.retryFromAttempt]
    norm_num [h0, Webhook.retryFromAttempt, h1, h2]
  · intro h
    show Webhook.retryFromAttempt f 3 (1/2) 0 3 = _
    rw [Webhook.retryFromAttempt]
    norm_num [h 0 (by omega), Webhook.retryFromAttempt, h 1 (by omega), h 2 (by omega)]
  · intro hs h0
    show Webhook.retryFromAttempt f 3 (1/2) 0 3 = _
    rw [Webhook.retryFromAttempt]
    simp [h0, hs]
  · intro h0
    show Webhook.retryFromAttempt f 3 (1/2) 0 3 = _
    rw [Webhook.retryFromAttempt]
    simp [h0]
  · intro g hg
    exact retryFromAttempt_congr f g 3 (1/2) 3 0 (fun i h1 h2 => hg i (by omega))

def seq500TwiceThenOk : Nat → Webhook.AttemptResult :=
  fun n => if n < 2 then .httpError 500 "Internal Server Error" else .ok (.str "payload")

def seq500Always : Nat → Webhook.AttemptResult :=
  fun _ => .httpError 500 "Internal Server Error"

def seq404 : Nat → Webhook.AttemptResult := fun _ => .httpError 404 "Not Found"

def seqConnFail : Nat → Webhook.AttemptResult := fun _ => .connError "Connection refused"

/-- Witness for C3's amended statement at concrete response sequences. -/
theorem C3_retry_only_on_500_witness :
    Webhook.call_webhook_with_retry seq500TwiceThenOk 3 (1/2)
        = (some (.str "payload"), [1/2, 1])
    ∧ Webhook.call_webhook_with_retry seq500Always 3 (1/2)
        = (some (errObj (Webhook.httpErrorStr 500 "Internal Server Error")), [1/2, 1])
    ∧ Webhook.call_webhook_with_retry seq404 3 (1/2)
        = (some (errObj (Webhook.httpErrorStr 404 "Not Found")), [])
    ∧ Webhook.call_webhook_with_retry seqConnFail 3 (1/2)
        = (some (errObj "Connection refused"), [])
    ∧ Webhook.call_webhook_with_retry seq404 3 (1/2)
        = Webhook.call_webhook_with_retry seq404 3 (1/2) :=
  ⟨(C3_retry_only_on_500 seq500TwiceThenOk (.str "payload") "Internal Server Error" "" 0).1
      rfl rfl rfl,
   (C3_retry_only_on_500 seq500Always (.str "payload") "Internal Server Error" "" 0).2.1
      (fun i _ => rfl),
   (C3_retry_only_on_500 seq404 (.str "payload") "Not Found" "" 404).2.2.1 (by decide) rfl,
   (C3_retry_only_on_500 seqConnFail .null "" "Connection refused" 0).2.2.2.1 rfl,
   (C3_retry_only_on_500 seq404 (.str "payload") "Not Found" "" 404).2.2.2.2 seq404
      (fun i _ => rfl)⟩

/-- A Booqable backend that fails every request. -/
def emptyAppBackend : App.Backend := ⟨none, none, none, none, none, none, none⟩

/-- Claim C4 counterexample: in the `App.py` variant, `execute_function`
on unparseable raw arguments raises (`json.loads` sits outside any
`try`), instead of yielding an `\x7b"error": ...\x7d` result. -/
theorem C4_counterexample_app_dispatch_raises :
    App.execute_function "list_product_groups" none emptyAppBackend
      = .error jsonDecodeErr := by
  rfl

lemma dispatchExceptHandlers_isOk (body : Except PyErr JVal) :
    (Webhook.dispatchExceptHandlers body).isOk = true := by
  cases body with
  | ok v => rfl
  | error e =>
    rw [Webhook.dispatchExceptHandlers]
    split <;> rfl

/-- Claim C4, amended: the webhook variant's `execute_function` has the
claimed behaviour — it never raises for any name, raw-argument string
and backend behaviour: unparseable arguments yield the
`Invalid JSON in arguments` error payload, unknown names the
`Unknown function` error payload, and handler failures are caught by
the catch-all.  The `App.py` variant lacks the `try`, so there
unparseable arguments propagate an exception out of the dispatcher
(see the counterexample). -/
theorem C4_webhook_dispatch_total (fn : String) (raw : Option JVal) (b : Webhook.Backend) :
    (Webhook.execute_function fn raw b).isOk = true
    ∧ (raw = none → Webhook.execute_function fn raw b
        = .ok (errObj ("Invalid JSON in arguments: " ++ jsonDecodeErr.msg)))
    ∧ (fn ∉ ["list_product_groups", "get_product_details", "create_reservation"] →
        ∀ a : JVal, raw = some a → Webhook.execute_function fn raw b
          = .ok (errObj ("Unknown function: " ++ fn))) := by
  refine ⟨dispatchExceptHandlers_isOk _, ?_, ?_⟩
  · intro h
    subst h
    rfl
  · intro hfn a h
    subst h
    simp only [List.mem_cons, List.mem_singleton, not_or] at hfn
    obtain ⟨h1, h2, h3, -⟩ := hfn
    simp [Webhook.execute_function, Webhook.dispatchExceptHandlers, jsonLoads,
      h1, h2, h3, Except.bind, Bind.bind, Pure.pure, Except.pure]

def webhookBackend0 : Webhook.Backend := ⟨.obj [], .obj [], .obj []⟩

/-- Witness for C4's amended statement at a concrete unknown name and
malformed / well-formed raw arguments. -/
theorem C4_webhook_dispatch_total_witness :
    (Webhook.execute_function "bogus_fn" none webhookBackend0).isOk = true
    ∧ Webhook.execute_function "bogus_fn" none webhookBackend0
        = .ok (errObj ("Invalid JSON in arguments: " ++ jsonDecodeErr.msg))
    ∧ Webhook.execute_function "bogus_fn" (some (.obj [])) webhookBackend0
        = .ok (errObj ("Unknown function: " ++ "bogus_fn")) :=
  ⟨(C4_webhook_dispatch_total "bogus_fn" none webhookBackend0).1,
   (C4_webhook_dispatch_total "bogus_fn" none webhookBackend0).2.1 rfl,
   (C4_webhook_dispatch_total "bogus_fn" (some (.obj [])) webhookBackend0).2.2
      (by decide) (.obj []) rfl⟩

/-- A response carrying a `product_groups` list but no `meta` object. -/
def cexListGroupsResp : JVal := .obj [("product_groups", .arr [])]

/-- Claim C6 counterexample: `list_product_groups` raises `KeyError`
past the provider boundary when the backend response passes the
`'product_groups' in response` check but lacks the `meta` key — it does
not return an `\x7b"error": ...\x7d` value. -/
theorem C6_counterexample_list_groups_raises :
    App.list_product_groups (some cexListGroupsResp) = .error (keyError "meta") := by
  rfl

lemma pyTry_isOk (body : Except PyErr JVal) (h : PyErr → JVal) :
    (pyTry body h).isOk = true := by
  cases body <;> rfl

/-- Claim C6, amended: the four operations whose bodies sit in a
`try/except Exception` (`check_availability`, `get_product_pricing`,
`create_order`, `book_order`) never raise past the provider boundary,
for every input and backend behaviour; `list_product_groups`,
`get_product_group` and `create_customer` return a success payload or
`\x7b"error": ...\x7d` when the backend request fails outright, but can
raise `KeyError` on responses missing expected nested keys (see the
counterexample). -/
theorem C6_provider_error_discipline
    (pid fromDate toDate cid startDate endDate oid qty : JVal)
    (pgResp availResp pricesResp ordersResp : Option JVal)
    (name email a1 a2 city zipc country phone : JVal) :
    (App.check_availability pid fromDate toDate pgResp availResp).isOk = true
    ∧ (App.get_product_pricing pid pgResp pricesResp).isOk = true
    ∧ (App.create_order cid startDate endDate ordersResp).isOk = true
    ∧ (App.book_order oid pid qty pgResp ordersResp).isOk = true
    ∧ App.list_product_groups none = .ok (errObj "Failed to retrieve product groups")
    ∧ App.get_product_group none = .ok (errObj "Failed to retrieve product group details")
    ∧ App.create_customer name email a1 a2 city zipc country phone none
        = .ok (errObj "Failed to create customer") :=
  ⟨pyTry_isOk _ _, pyTry_isOk _ _, pyTry_isOk _ _, pyTry_isOk _ _, rfl, rfl, rfl⟩

/-- A successful availability response, as the Booqable endpoint shapes
it. -/
def availOkResp : JVal :=
  .obj [("available", .num 2), ("stock_count", .num 2), ("needed", .num 0), ("planned", .num 0)]

/-- Claim C7 counterexample: a same-day `check_availability` request in
the REST variant succeeds with the pass-through availability payload,
which computes no rental duration at all — its result has no
`rental_days` field, so the field cannot equal 1. -/
theorem C7_counterexample_no_rental_days_field :
    App.check_availability (.str "p1") (.str "2025-06-01") (.str "2025-06-01")
        none (some availOkResp) = .ok availOkResp
    ∧ jLookup? availOkResp "rental_days" = none :=
  ⟨rfl, rfl⟩

/-- Claim C7, amended: in the webhook variant's `get_product_details`
(the operation that does compute a rental duration), a request with
equal start and end dates yields `rental_days = 1` — never 0 — and a
total price of `base_price * 1`; the REST variant's
`check_availability` returns the backend's availability counts verbatim
and has no `rental_days` field (see the counterexample). -/
theorem C7_same_day_rental_one_day (gid resp : JVal) (d : String)
    (pd : Nat × Nat × Nat) (bv pidv pnv av : JVal) (b : ℚ)
    (hd : parseYMD d = some pd)
    (ht : truthy resp = true)
    (he : jHasKey resp "error" = .ok false)
    (hbp : jGetD resp "productBasePrice" (.num 0) = .ok bv)
    (hfl : pyFloat bv = some b)
    (hpid : jGetD resp "productId" .null = .ok pidv)
    (hpn : jGetD resp "productName" .null = .ok pnv)
    (hav : jGetD resp "available" (.num 0) = .ok av) :
    Webhook.get_product_details gid (.str d) (.str d) resp
      = .ok (.obj [("product_id", pidv), ("name", pnv),
          ("availability", .obj [("available", av)]),
          ("pricing", .obj [("base_price", .num b), ("total_price", .num (b * 1)),
            ("rental_days", .num 1)])]) := by
  simp [Webhook.get_product_details, pyTry, pyDateToISOZ, strptimeYMD, strptimeJ, hd,
    ht, he, hbp, pyFloatE, hfl, hpid, hpn, hav, Except.bind, Bind.bind, Pure.pure,
    Except.pure, sub_self]

/-- A webhook availability response for one product. -/
def detailsResp : JVal :=
  .obj [("productId", .str "p1"), ("productName", .str "Forklift"),
    ("productBasePrice", .num 100), ("available", .num 3)]

/-- Witness for C7's amended statement: a concrete same-day request. -/
theorem C7_same_day_rental_one_day_witness :
    Webhook.get_product_details (.str "g1") (.str "2025-06-01") (.str "2025-06-01") detailsResp
      = .ok (.obj [("product_id", .str "p1"), ("name", .str "Forklift"),
          ("availability", .obj [("available", .num 3)]),
          ("pricing", .obj [("base_price", .num 100), ("total_price", .num (100 * 1)),
            ("rental_days", .num 1)])]) :=
  C7_same_day_rental_one_day (.str "g1") detailsResp "2025-06-01" (2025, 6, 1)
    (.num 100) (.str "p1") (.str "Forklift") (.num 3) 100
    rfl rfl rfl rfl rfl rfl rfl rfl

/-- Claim C8: for a truthy product/group identifier and fixed backend
data, the speculative group-to-product resolution performed inside
`check_availability`, `get_product_pricing` and `book_order` selects
the same product — the first product of the group — in all three
operations. -/
theorem C8_group_resolution_consistent (pid : JVal) (pgResp : Option JVal)
    (h : truthy pid = true) :
    App.checkAvailabilityResolvedId pid pgResp = App.pricingResolvedId pid pgResp
    ∧ App.pricingResolvedId pid pgResp = App.bookOrderResolvedId pid pgResp := by
  constructor
  · simp only [App.checkAvailabilityResolvedId, App.pricingResolvedId, h]
    rfl
  · rfl

/-- A product-group detail response with one bookable product. -/
def groupResp0 : JVal :=
  .obj [("product_group", .obj [("id", .str "g1"), ("name", .str "Excavators"),
    ("products", .arr [.obj [("id", .str "p1"), ("name", .str "Mini Excavator")]])])]

/-- Witness for C8 at a concrete group id and backend response. -/
theorem C8_group_resolution_consistent_witness :
    App.checkAvailabilityResolvedId (.str "g1") (some groupResp0)
        = App.pricingResolvedId (.str "g1") (some groupResp0)
    ∧ App.pricingResolvedId (.str "g1") (some groupResp0)
        = App.bookOrderResolvedId (.str "g1") (some groupResp0) :=
  C8_group_resolution_consistent (.str "g1") (some groupResp0) rfl

/-- Claim C9 counterexample: the REST variant's `create_customer` sends
the phone number into the backend request verbatim — here a number
without the leading `+` and with separator dashes reaches the request
body unchanged, not as `+15551234567`. -/
theorem C9_counterexample_rest_phone_verbatim :
    ((jLookup? (App.customer_data (.str "Jane Doe") (.str "jane@doe.example")
        (.str "1 Main St") .null (.str "Springfield") (.str "12345") (.str "USA")
        (.str "555-123-4567")) "customer").bind
      (fun c => (jLookup? c "properties_attributes").bind
        (fun pa =>
          match pa with
          | .arr [_, phoneProp] => jLookup? phoneProp "value"
          | _ => none)))
      = some (.str "555-123-4567")
    ∧ startsWithList "+".data "555-123-4567".data = false
    ∧ (JVal.str "555-123-4567") ≠ .str ("+1" ++ removeDashes "555-123-4567") := by
  refine ⟨rfl, rfl, ?_⟩
  simp only [ne_eq, JVal.str.injEq]
  decide

/-- Claim C9, amended: the normalization exists only in the webhook
variant's `create_reservation`: there, a nonempty phone string without
a leading `+` is sent as `+1` prepended to the string with its dashes
removed, and a string starting with `+` passes through unchanged.  The
REST variant's `create_customer` performs no normalization (see the
counterexample), and an empty phone string is also left untouched. -/
theorem C9_webhook_phone_normalization (ci pid : JVal) (sd ed phoneS : String)
    (d1 d2 : Nat × Nat × Nat) (nv ev : JVal)
    (hd1 : parseYMD sd = some d1)
    (hd2 : parseYMD ed = some d2)
    (hname : jGetD ci "name" (.str "") = .ok nv)
    (hemail : jGetD ci "email" (.str "") = .ok ev)
    (hphone : jGetD ci "phone" (.str "") = .ok (.str phoneS))
    (hne : phoneS ≠ "") :
    (startsWithList "+".data phoneS.data = false →
      ((Webhook.reservation_payload ci pid (.str sd) (.str ed)).toOption.bind
          (fun v => (jLookup? v "args").bind (fun a => jLookup? a "client_phone")))
        = some (.str ("+1" ++ removeDashes phoneS)))
    ∧ (startsWithList "+".data phoneS.data = true →
      ((Webhook.reservation_payload ci pid (.str sd) (.str ed)).toOption.bind
          (fun v => (jLookup? v "args").bind (fun a => jLookup? a "client_phone")))
        = some (.str phoneS)) := by
  constructor
  · intro hplus
    simp [Webhook.reservation_payload, pyDateToISOStart, pyDateToISOEnd, strptimeYMD,
      hd1, hd2, hname, hemail, hphone, Webhook.normalizePhone, truthy, hne, hplus,
      Except.bind, Bind.bind, Pure.pure, Except.pure, Except.toOption, jLookup?]
  · intro hplus
    simp [Webhook.reservation_payload, pyDateToISOStart, pyDateToISOEnd, strptimeYMD,
      hd1, hd2, hname, hemail, hphone, Webhook.normalizePhone, truthy, hne, hplus,
      Except.bind, Bind.bind, Pure.pure, Except.pure, Except.toOption, jLookup?]

/-- Customer info with an un-normalized phone number. -/
def customerInfo0 : JVal :=
  .obj [("name", .str "Jane Doe"), ("email", .str "jane@doe.example"),
    ("phone", .str "555-123-4567")]

/-- Customer info with an already international phone number. -/
def customerInfo1 : JVal :=
  .obj [("name", .str "Ola Nordmann"), ("email", .str "ola@nordmann.example"),
    ("phone", .str "+4712345678")]

/-- Witness for C9's amended statement: a dashed national number is
normalized, a `+`-prefixed number passes through. -/
theorem C9_webhook_phone_normalization_witness :
    ((Webhook.reservation_payload customerInfo0 (.str "p1")
        (.str "2025-07-01") (.str "2025-07-03")).toOption.bind
      (fun v => (jLookup? v "args").bind (fun a => jLookup? a "client_phone")))
      = some (.str ("+1" ++ removeDashes "555-123-4567"))
    ∧ ((Webhook.reservation_payload customerInfo1 (.str "p1")
        (.str "2025-07-01") (.str "2025-07-03")).toOption.bind
      (fun v => (jLookup? v "args").bind (fun a => jLookup? a "client_phone")))
      = some (.str "+4712345678") :=
  ⟨(C9_webhook_phone_normalization customerInfo0 (.str "p1") "2025-07-01" "2025-07-03"
      "555-123-4567" (2025, 7, 1) (2025, 7, 3) (.str "Jane Doe") (.str "jane@doe.example")
      rfl rfl rfl rfl rfl (by decide)).1 rfl,
   (C9_webhook_phone_normalization customerInfo1 (.str "p1") "2025-07-01" "2025-07-03"
      "+4712345678" (2025, 7, 1) (2025, 7, 3) (.str "Ola Nordmann")
      (.str "ola@nordmann.example") rfl rfl rfl rfl rfl (by decide)).2 rfl⟩

end Theorems

end PrevailRental
